import Mathlib

/-!
Shallow embedding of the AgriPulse backend market terminal
(`routers/terminal.py`): mandi-record normalization, summary aggregation,
price forecasting, the structured-insight resolver with its deterministic
fallback, and the trade-simulation engine.  Python floats are modelled as
rationals (`ℚ`); external collaborators (market API, Gemini, the random
number generator, the distance provider) are passed in as explicit
parameters, mirroring the data they would supply.
-/

namespace AgriPulse

/-- A loosely-typed value as found in a raw provider record
(JSON string, JSON number, or JSON null). -/
inductive PyVal where
  | vstr (s : String)
  | vnum (q : ℚ)
  | vnone
deriving DecidableEq

/-- A raw mandi record as returned by the market-price provider: every
field may be absent (`none` models a missing dictionary key). -/
structure RawRecord where
  state : Option String
  district : Option String
  market : Option String
  commodity : Option String
  variety : Option String
  arrival_date : Option String
  price_unit : Option String
  min_price : Option PyVal
  max_price : Option PyVal
  modal_price : Option PyVal
deriving DecidableEq

/-- A normalized market record, the output type of
`normalize_mandi_records` (terminal.py lines 159-180). -/
structure MarketRecord where
  state : String
  district : String
  market : String
  commodity : String
  variety : String
  arrival_date : String
  min_price : Option ℚ
  max_price : Option ℚ
  modal_price : Option ℚ
  unit : String
deriving DecidableEq

/-- Python `str.capitalize()`: first character upper-cased, the rest
lower-cased (ASCII model). -/
def pyCapitalize (s : String) : String :=
  match s.toList with
  | [] => ""
  | c :: cs => String.mk (c.toUpper :: cs.map Char.toLower)

/-- Numeric value of a list of decimal digit characters. -/
def digitsToNat (cs : List Char) : ℕ :=
  cs.foldl (fun a c => a * 10 + (c.toNat - 48)) 0

/-- Drop leading and trailing whitespace from a character list. -/
def stripChars (cs : List Char) : List Char :=
  ((cs.dropWhile Char.isWhitespace).reverse.dropWhile Char.isWhitespace).reverse

/-- Python `str.strip()`. -/
def pyStrip (s : String) : String :=
  String.mk (stripChars s.toList)

/-- Model of Python's `float(str)` on decimal literals: optional
surrounding whitespace, optional sign, digits with an optional fractional
part.  Returns `none` when the string does not parse (Python raises
`ValueError` there). -/
def parseFloatQ (s : String) : Option ℚ :=
  let cs := stripChars s.toList
  let signBody : ℚ × List Char :=
    match cs with
    | '+' :: rest => (1, rest)
    | '-' :: rest => (-1, rest)
    | rest => (1, rest)
  let sign := signBody.1
  let body := signBody.2
  let intPart := body.takeWhile Char.isDigit
  let rest := body.dropWhile Char.isDigit
  match rest with
  | [] => if intPart.isEmpty then none else some (sign * (digitsToNat intPart : ℚ))
  | '.' :: frac =>
      if frac.all Char.isDigit && !(intPart.isEmpty && frac.isEmpty) then
        some (sign * ((digitsToNat intPart : ℚ) +
          (digitsToNat frac : ℚ) / (10 : ℚ) ^ frac.length))
      else none
  | _ => none

/-- Model of Python's `float(x)` on a loosely-typed value: numbers pass
through, strings are parsed, `None` raises (modelled as `none`). -/
def pyFloatVal : PyVal → Option ℚ
  | .vstr s => parseFloatQ s
  | .vnum q => some q
  | .vnone => none

/-- Model of `float_or_none` (terminal.py lines 183-187): `float(x)` with every
failure (missing key, unparsable string, `None`) mapped to `None`. -/
def float_or_none (x : Option PyVal) : Option ℚ :=
  match x with
  | none => none
  | some v => pyFloatVal v

/-- One iteration of the `normalize_mandi_records` loop body: `none` when
`float(r["modal_price"])` raises (missing key or unparsable value), in
which case the record is skipped. -/
def normalizeOne (commodity_name : String) (r : RawRecord) : Option MarketRecord :=
  match r.modal_price.bind pyFloatVal with
  | none => none
  | some modal_val =>
      some {
        state := r.state.getD ""
        district := r.district.getD ""
        market := r.market.getD ""
        commodity := pyCapitalize commodity_name
        variety := r.variety.getD ""
        arrival_date := r.arrival_date.getD ""
        min_price := float_or_none r.min_price
        max_price := float_or_none r.max_price
        modal_price := some modal_val
        unit := r.price_unit.getD "Rs/Quintal" }

/-- Model of `normalize_mandi_records` (terminal.py lines 159-180). -/
def normalize_mandi_records (records : List RawRecord) (commodity_name : String) :
    List MarketRecord :=
  records.filterMap (normalizeOne commodity_name)

/-- The record `normalize_mandi_records` produces for a raw record whose
modal price parses; used to characterise the normalizer as
filter-then-map. -/
def normalizeForced (commodity_name : String) (r : RawRecord) : MarketRecord :=
  { state := r.state.getD ""
    district := r.district.getD ""
    market := r.market.getD ""
    commodity := pyCapitalize commodity_name
    variety := r.variety.getD ""
    arrival_date := r.arrival_date.getD ""
    min_price := float_or_none r.min_price
    max_price := float_or_none r.max_price
    modal_price := r.modal_price.bind pyFloatVal
    unit := r.price_unit.getD "Rs/Quintal" }

/-- Python's `round(x, 2)`: round to 2 decimal places, halves to even
(exact decimal model of banker's rounding). -/
def pyRound2 (q : ℚ) : ℚ :=
  let x := q * 100
  let f := ⌊x⌋
  let r := x - (f : ℚ)
  let n : ℤ :=
    if r < 1 / 2 then f
    else if 1 / 2 < r then f + 1
    else if f % 2 = 0 then f else f + 1
  (n : ℚ) / 100

/-- Python truthiness of an optional price, as used by
`if m.get("modal_price")`: `None` and `0.0` are falsy. -/
def truthyPrice : Option ℚ → Bool
  | none => false
  | some q => decide (q ≠ 0)

/-- The price list of terminal.py line 51 / line 212:
`[m["modal_price"] for m in market_data if m.get("modal_price")]`. -/
def truthyModalPrices (market_data : List MarketRecord) : List ℚ :=
  (market_data.filter (fun m => truthyPrice m.modal_price)).map
    (fun m => m.modal_price.getD 0)

/-- Model of `statistics.mean` on rationals. -/
def pyMean (l : List ℚ) : ℚ :=
  l.sum / (l.length : ℚ)

/-- The summary `average_price` computation (terminal.py lines 51-52):
`round(statistics.mean(modal_prices), 2) if modal_prices else 0`. -/
def summaryAveragePrice (market_data : List MarketRecord) : ℚ :=
  let modal_prices := truthyModalPrices market_data
  if modal_prices.isEmpty then 0 else pyRound2 (pyMean modal_prices)

/-- Python `max`/`min` with a key: fold keeping the current champion,
replacing it only on a strict improvement (so the first optimum wins);
`none` on an empty list (Python raises `ValueError` there). -/
def pyFold1 {α : Type} (better : α → α → Bool) : List α → Option α
  | [] => none
  | x :: xs => some (xs.foldl (fun acc y => if better acc y then y else acc) x)

/-- Key of terminal.py line 54: `x.get("modal_price", 0)`. -/
def keyHigh (m : MarketRecord) : ℚ :=
  m.modal_price.getD 0

/-- Key of terminal.py line 56: `x.get("modal_price", float("inf"))`,
with `+inf` modelled as the top element of `WithTop ℚ`. -/
def keyLow (m : MarketRecord) : WithTop ℚ :=
  match m.modal_price with
  | some q => (q : WithTop ℚ)
  | none => ⊤

/-- Model of `max(market_data, key=lambda x: x.get("modal_price", 0))`. -/
def pyMaxRecord (market_data : List MarketRecord) : Option MarketRecord :=
  pyFold1 (fun acc y => decide (keyHigh acc < keyHigh y)) market_data

/-- Model of `min(market_data, key=lambda x: x.get("modal_price", float("inf")))`. -/
def pyMinRecord (market_data : List MarketRecord) : Option MarketRecord :=
  pyFold1 (fun acc y => decide (keyLow y < keyLow acc)) market_data

/-- The summary dictionary built by `get_market_terminal`
(terminal.py lines 59-66). -/
structure Summary where
  commodity : String
  average_price : ℚ
  highest_price : ℚ
  highest_market : String
  lowest_price : ℚ
  lowest_market : String
deriving DecidableEq

/-- The summary computation of `get_market_terminal` (terminal.py lines
51-66).  `none` models the `ValueError` that `max`/`min` raise on an
empty record list (caught by the endpoint's blanket handler as a 500). -/
def computeSummary (market_data : List MarketRecord) (commodity : String) :
    Option Summary :=
  match pyMaxRecord market_data, pyMinRecord market_data with
  | some highest_market, some lowest_market =>
      some {
        commodity := pyCapitalize commodity
        average_price := summaryAveragePrice market_data
        highest_price := highest_market.modal_price.getD 0
        highest_market := highest_market.market ++ ", " ++ highest_market.state
        lowest_price := lowest_market.modal_price.getD 0
        lowest_market := lowest_market.market ++ ", " ++ lowest_market.state }
  | _, _ => none

/-- One point of the price forecast (terminal.py lines 216-221), with the
calendar date modelled as an absolute day number. -/
structure ForecastPoint where
  date : ℤ
  forecast_price : ℚ
deriving DecidableEq

/-- Stable insertion of `x` into a sorted list: `x` goes before the first
element `y` with `le x y`, so equal-key elements keep their original
relative order. -/
def insertIntoSorted {α : Type} (le : α → α → Bool) (x : α) : List α → List α
  | [] => [x]
  | y :: ys => if le x y then x :: y :: ys else y :: insertIntoSorted le x ys

/-- Python's stable `sorted` (insertion sort; for a total preorder this
produces the same output as any stable sort). -/
def pySort {α : Type} (le : α → α → Bool) (l : List α) : List α :=
  l.foldr (insertIntoSorted le) []

/-- Model of `statistics.median`: sort ascending, take the middle element (odd
length) or the mean of the two middle elements (even length). -/
def pyMedian (l : List ℚ) : ℚ :=
  let s := pySort (fun a b => decide (a ≤ b)) l
  let n := s.length
  if n % 2 = 1 then s.getD (n / 2) 0
  else (s.getD (n / 2 - 1) 0 + s.getD (n / 2) 0) / 2

/-- Model of `generate_price_forecast` (terminal.py lines 210-222).  `jitter i`
stands for the draw of `random.uniform(-50, 50)` used for day `i`, and
`today` for `datetime.utcnow().date()` as a day number. -/
def generate_price_forecast (jitter : ℕ → ℚ) (today : ℤ)
    (market_data : List MarketRecord) (days : ℕ) : List ForecastPoint :=
  let prices := truthyModalPrices market_data
  let baseline := if prices.isEmpty then 0 else pyMedian prices
  (List.range' 1 days).map (fun (i : ℕ) =>
    { date := today + (i : ℤ), forecast_price := pyRound2 (baseline + jitter i) })

/-- JSON values, used for the structured-insight payloads. -/
inductive Json where
  | jnull
  | jbool (b : Bool)
  | jnum (q : ℚ)
  | jstr (s : String)
  | jarr (elems : List Json)
  | jobj (fields : List (String × Json))

/-- The validation of terminal.py line 292:
`isinstance(parsed, dict) and "recommendation" in parsed`. -/
def hasRecommendationKey : Json → Bool
  | .jobj fields => fields.any (fun kv => kv.1 == "recommendation")
  | _ => false

/-- The `current` sub-dictionary of a weather snapshot; only the two
fields read by the fallback insight are modelled, each possibly absent. -/
structure WeatherCurrent where
  precip_mm : Option ℚ
  temp_c : Option ℚ
deriving DecidableEq

/-- A weather snapshot as produced by `fetch_weather_for_location`. -/
structure Weather where
  location : String
  country : String
  current : WeatherCurrent
deriving DecidableEq

/-- The `{market, state, price}` entry built for `sell_high`/`buy_low`
(terminal.py lines 324-331). -/
def marketEntryJson (m : MarketRecord) : Json :=
  .jobj [("market", .jstr m.market), ("state", .jstr m.state),
         ("price", .jnum (m.modal_price.getD 0))]

/-- Model of `fallback_structured_insight` (terminal.py lines 311-364). -/
def fallback_structured_insight (commodity : String)
    (market_data : List MarketRecord) (summary : Summary)
    (forecast : List ForecastPoint) (harvest_days : ℤ) (weather : Weather) :
    Json :=
  let priced := market_data.filter (fun m => m.modal_price.isSome)
  let sells := (pySort
    (fun a b => decide (-(a.modal_price.getD 0) ≤ -(b.modal_price.getD 0)))
    priced).take 5
  let buys := (pySort
    (fun a b => decide (a.modal_price.getD 0 ≤ b.modal_price.getD 0))
    priced).take 5
  let sell_high := Json.jarr (sells.map marketEntryJson)
  let buy_low := Json.jarr (buys.map marketEntryJson)
  let factors0 :=
    (if 0 < weather.current.precip_mm.getD 0 then ["recent rainfall"] else []) ++
    (if 34 < weather.current.temp_c.getD 0 then ["high temperatures"] else [])
  let factors :=
    if factors0.isEmpty then ["stable weather", "no major issues"] else factors0
  let baseline := summary.average_price
  let next_price :=
    match forecast with
    | [] => baseline
    | p :: _ => p.forecast_price
  let pick : String × ℚ × String :=
    if baseline * (102 / 100) < next_price then
      ("SELL", 80, "Prices are trending upward — ideal for selling.")
    else if next_price < baseline * (98 / 100) then
      ("BUY", 75, "Prices slightly down — opportunity to buy.")
    else
      ("HOLD", 70, "Market stable — hold for short term.")
  let action := pick.1
  let conf := pick.2.1
  let reason := pick.2.2
  Json.jobj [
    ("recommendation", .jobj [("action", .jstr action),
      ("confidence", .jnum conf), ("reason", .jstr reason)]),
    ("yield_outlook", .jobj [("change_percent", .jstr "+0.3%"),
      ("factors", .jarr (factors.map Json.jstr))]),
    ("price_forecast_comment", .jstr "Minor short-term variations expected."),
    ("market_sentiment", .jobj [("overall", .jstr "neutral"),
      ("keywords", .jarr [.jstr "steady", .jstr "moderate"])]),
    ("optimal_market", .jobj [("sell_high", sell_high), ("buy_low", buy_low)]),
    ("ai_summary", .jstr reason),
    ("reason", .jstr reason)]

/-- Model of `generate_structured_ai_insight` (terminal.py lines 228-305).
`parseJson` stands for `json.loads` (returning `none` where Python would
raise), and `collabResult` for the outcome of the Gemini call together
with the `.text` extraction: `.error` when any exception is raised,
`.ok raw` when it yields the text `raw`. -/
def generate_structured_ai_insight (parseJson : String → Option Json)
    (collabResult : Except Unit String) (commodity : String)
    (market_data : List MarketRecord) (summary : Summary)
    (forecast : List ForecastPoint) (harvest_days : ℤ) (weather : Weather)
    (location : String) : Json :=
  match collabResult with
  | .error _ =>
      fallback_structured_insight commodity market_data summary forecast
        harvest_days weather
  | .ok raw =>
      let text := pyStrip raw
      match parseJson text with
      | some parsed =>
          if hasRecommendationKey parsed then parsed
          else
            fallback_structured_insight commodity market_data summary forecast
              harvest_days weather
      | none =>
          fallback_structured_insight commodity market_data summary forecast
            harvest_days weather

/-- Model of `compute_trade_profit` (terminal.py lines 414-420), with the sampled
per-km logistics rate (`random.randint`) supplied explicitly.  Returns
`(logistics_cost, net_profit, roi)`. -/
def compute_trade_profit (rate buy_price sell_price distance_km qty_tonnes : ℚ) :
    ℚ × ℚ × ℚ :=
  let logistics_cost := rate * distance_km
  let gross_profit := (sell_price - buy_price) * qty_tonnes
  let net_profit := gross_profit - logistics_cost
  let roi :=
    if 0 < buy_price then net_profit / (buy_price * qty_tonnes) * 100 else 0
  (logistics_cost, net_profit, roi)

/-- An exception raised inside the `simulate_trade` body: the 404
`HTTPException` of lines 440-442, or the `KeyError` that indexing the
`market` column of an empty data frame raises. -/
inductive PyError where
  | httpExc (status_code : ℕ) (detail : String)
  | keyError (key : String)
deriving DecidableEq

/-- Python `str(e)` for the modelled exceptions (Starlette's
`HTTPException.__str__` is `f"{status_code}: {detail}"`; `str` of a
`KeyError` is the repr of its key). -/
def strOfError : PyError → String
  | .httpExc s d => toString s ++ ": " ++ d
  | .keyError k => "'" ++ k ++ "'"

/-- The error actually surfaced to the HTTP caller. -/
structure HTTPError where
  status_code : ℕ
  detail : String
deriving DecidableEq

/-- The JSON body returned by a successful `simulate_trade`
(terminal.py lines 467-483). -/
structure TradeResult where
  mode : String
  domestic : Bool
  commodity : String
  source : String
  destination : String
  distance_km : ℚ
  buy_price_inr_per_tonne : ℚ
  sell_price_inr_per_tonne : ℚ
  qty_tonnes : ℚ
  logistics_cost_inr : ℚ
  net_profit_inr : ℚ
  roi_percent : ℚ
  profitable : Bool
deriving DecidableEq

/-- Whether `needle` occurs as a contiguous sublist of the second list. -/
def containsSub {α : Type} [BEq α] (needle : List α) : List α → Bool
  | [] => needle.isEmpty
  | c :: cs => needle.isPrefixOf (c :: cs) || containsSub needle cs

/-- Case-insensitive substring containment, as in pandas
`str.contains(needle, case=False)` (ASCII lower-casing, done
character-wise). -/
def containsCI (haystack needle : String) : Bool :=
  containsSub (needle.toList.map Char.toLower) (haystack.toList.map Char.toLower)

/-- The body of the domestic branch of `simulate_trade` (terminal.py
lines 432-483), with the externally-fetched raw records, the resolved
distance and the sampled per-km rate passed in.  Errors raised inside the
`try` block are returned as `PyError`. -/
def simulateTradeDomesticBody (records : List RawRecord)
    (commodity source destination : String) (qty_tonnes distance_km rate : ℚ) :
    Except PyError TradeResult :=
  let md := normalize_mandi_records records commodity
  if md.isEmpty then .error (.keyError "market")
  else
    let src := md.filter (fun m => containsCI m.market source)
    let dst := md.filter (fun m => containsCI m.market destination)
    match src, dst with
    | [], _ => .error (.httpExc 404 "Source/destination not found in mandi data")
    | _, [] => .error (.httpExc 404 "Source/destination not found in mandi data")
    | s0 :: _, d0 :: _ =>
        let buy_price := s0.modal_price.getD 0 * 10
        let sell_price := d0.modal_price.getD 0 * 10
        let res := compute_trade_profit rate buy_price sell_price distance_km qty_tonnes
        .ok {
          mode := "Domestic"
          domestic := true
          commodity := pyCapitalize commodity
          source := source
          destination := destination
          distance_km := pyRound2 distance_km
          buy_price_inr_per_tonne := pyRound2 buy_price
          sell_price_inr_per_tonne := pyRound2 sell_price
          qty_tonnes := qty_tonnes
          logistics_cost_inr := pyRound2 res.1
          net_profit_inr := pyRound2 res.2.1
          roi_percent := pyRound2 res.2.2
          profitable := decide (0 < res.2.1) }

/-- Model of `simulate_trade` in domestic mode as seen by the HTTP caller: the
`except Exception` handler of lines 485-487 converts every exception
raised in the body — including the 404 `HTTPException` — into a 500 whose
detail is `str(e)`. -/
def simulate_trade_domestic (records : List RawRecord)
    (commodity source destination : String) (qty_tonnes distance_km rate : ℚ) :
    Except HTTPError TradeResult :=
  match simulateTradeDomesticBody records commodity source destination
      qty_tonnes distance_km rate with
  | .ok r => .ok r
  | .error e => .error { status_code := 500, detail := strOfError e }

/-- The static fallback mandi records of `fetch_mandi_records`
(terminal.py lines 131-156). -/
def fallback_mandi_records (commodity today : String) : List RawRecord :=
  [ { state := some "Madhya Pradesh"
      district := some "Indore"
      market := some "Indore"
      commodity := some (pyCapitalize commodity)
      variety := some "Common"
      arrival_date := some today
      price_unit := some "Rs/Quintal"
      min_price := some (.vstr "2200")
      max_price := some (.vstr "2450")
      modal_price := some (.vstr "2350") },
    { state := some "Maharashtra"
      district := some "Nagpur"
      market := some "Nagpur"
      commodity := some (pyCapitalize commodity)
      variety := some "Common"
      arrival_date := some today
      price_unit := some "Rs/Quintal"
      min_price := some (.vstr "2250")
      max_price := some (.vstr "2480")
      modal_price := some (.vstr "2380") } ]

/-- Spec-side definition, following the words of the claim about the
summary average: the arithmetic mean of all non-null `modal_price`
values, rounded to 2 decimals, and `0` when none are present. -/
def specAverageAllNonNull (market_data : List MarketRecord) : ℚ :=
  let ps := market_data.filterMap (fun m => m.modal_price)
  if ps.isEmpty then 0 else pyRound2 (pyMean ps)

/-- The amended average: the mean of all non-null **and non-zero** modal
prices (Python truthiness), rounded to 2 decimals, `0` when none. -/
def averageNonNullNonZero (market_data : List MarketRecord) : ℚ :=
  let ps := market_data.filterMap
    (fun m => m.modal_price.bind (fun q => if q = 0 then none else some q))
  if ps.isEmpty then 0 else pyRound2 (pyMean ps)

/-- Jitter stream with the randomness mocked out to `0`. -/
def zeroJitter : ℕ → ℚ := fun _ => 0

/-- Jitter stream whose every draw is `25` (a legal value of
`random.uniform(-50, 50)`). -/
def jitter25 : ℕ → ℚ := fun _ => 25

/-- A `json.loads` stand-in that fails on every input (the collaborator
returned text that is not valid JSON). -/
def parseAlwaysFails : String → Option Json := fun _ => none

/-- Concrete normalized record used in witnesses and counterexamples. -/
def mkTestRecord (market state arrival : String) (price : Option ℚ) :
    MarketRecord :=
  { state := state
    district := ""
    market := market
    commodity := "Wheat"
    variety := ""
    arrival_date := arrival
    min_price := none
    max_price := none
    modal_price := price
    unit := "Rs/Quintal" }

/-- Two normalized records whose (non-null) modal prices are `0` and
`100`. -/
def recordsZeroHundred : List MarketRecord :=
  [mkTestRecord "A" "S1" "" (some 0), mkTestRecord "B" "S2" "" (some 100)]

/-- Normalized records with parsable arrival dates exactly 10 days apart
and modal prices exactly 100 apart. -/
def recordsTenDaysApart : List MarketRecord :=
  [mkTestRecord "A" "S1" "2024-01-01" (some 100),
   mkTestRecord "B" "S2" "2024-01-11" (some 200)]

/-- A concrete summary for resolver witnesses. -/
def testSummary : Summary :=
  { commodity := "Wheat"
    average_price := 2350
    highest_price := 2380
    highest_market := "Nagpur, Maharashtra"
    lowest_price := 2350
    lowest_market := "Indore, Madhya Pradesh" }

/-- A concrete weather snapshot for resolver witnesses. -/
def testWeather : Weather :=
  { location := "Indore", country := "India", current := { precip_mm := none, temp_c := none } }

/-- A raw record whose modal price does not parse as a float. -/
def rawUnparsable : RawRecord :=
  { state := some "Madhya Pradesh"
    district := some "Indore"
    market := some "Indore"
    commodity := some "Wheat"
    variety := some "Common"
    arrival_date := some "2024-01-01"
    price_unit := some "Rs/Quintal"
    min_price := some (.vstr "2200")
    max_price := some (.vstr "2450")
    modal_price := some (.vstr "N/A") }

/-- A raw record whose modal price parses but whose min price does not. -/
def rawParsable : RawRecord :=
  { state := some "Maharashtra"
    district := some "Nagpur"
    market := some "Nagpur"
    commodity := some "Wheat"
    variety := some "Common"
    arrival_date := some "2024-01-02"
    price_unit := some "Rs/Quintal"
    min_price := some (.vstr "NR")
    max_price := some (.vstr "2480.5")
    modal_price := some (.vstr "2380") }

/-- Raw-record batch mixing an unparsable and a parsable modal price. -/
def testRawRecords : List RawRecord :=
  [rawUnparsable, rawParsable]

/-- Evaluation of `parseFloatQ` on the digit string "2350". -/
theorem parseFloatQ_2350 : parseFloatQ "2350" = some 2350 := by
  have h : stripChars ['2','3','5','0'] = ['2','3','5','0'] := by decide
  have h2 : List.takeWhile Char.isDigit ['2','3','5','0'] = ['2','3','5','0'] := by decide
  have h3 : List.dropWhile Char.isDigit ['2','3','5','0'] = [] := by decide
  have h4 : digitsToNat ['2','3','5','0'] = 2350 := by decide
  simp [parseFloatQ, h, h2, h3, h4]

/-- Evaluation of `parseFloatQ` on the digit string "2380". -/
theorem parseFloatQ_2380 : parseFloatQ "2380" = some 2380 := by
  have h : stripChars ['2','3','8','0'] = ['2','3','8','0'] := by decide
  have h2 : List.takeWhile Char.isDigit ['2','3','8','0'] = ['2','3','8','0'] := by decide
  have h3 : List.dropWhile Char.isDigit ['2','3','8','0'] = [] := by decide
  have h4 : digitsToNat ['2','3','8','0'] = 2380 := by decide
  simp [parseFloatQ, h, h2, h3, h4]

/-- Evaluation of `parseFloatQ` on the digit string "2200". -/
theorem parseFloatQ_2200 : parseFloatQ "2200" = some 2200 := by
  have h : stripChars ['2','2','0','0'] = ['2','2','0','0'] := by decide
  have h2 : List.takeWhile Char.isDigit ['2','2','0','0'] = ['2','2','0','0'] := by decide
  have h3 : List.dropWhile Char.isDigit ['2','2','0','0'] = [] := by decide
  have h4 : digitsToNat ['2','2','0','0'] = 2200 := by decide
  simp [parseFloatQ, h, h2, h3, h4]

/-- Evaluation of `parseFloatQ` on the digit string "2450". -/
theorem parseFloatQ_2450 : parseFloatQ "2450" = some 2450 := by
  have h : stripChars ['2','4','5','0'] = ['2','4','5','0'] := by decide
  have h2 : List.takeWhile Char.isDigit ['2','4','5','0'] = ['2','4','5','0'] := by decide
  have h3 : List.dropWhile Char.isDigit ['2','4','5','0'] = [] := by decide
  have h4 : digitsToNat ['2','4','5','0'] = 2450 := by decide
  simp [parseFloatQ, h, h2, h3, h4]

/-- Evaluation of `parseFloatQ` on the digit string "2250". -/
theorem parseFloatQ_2250 : parseFloatQ "2250" = some 2250 := by
  have h : stripChars ['2','2','5','0'] = ['2','2','5','0'] := by decide
  have h2 : List.takeWhile Char.isDigit ['2','2','5','0'] = ['2','2','5','0'] := by decide
  have h3 : List.dropWhile Char.isDigit ['2','2','5','0'] = [] := by decide
  have h4 : digitsToNat ['2','2','5','0'] = 2250 := by decide
  simp [parseFloatQ, h, h2, h3, h4]

/-- Evaluation of `parseFloatQ` on the digit string "2480". -/
theorem parseFloatQ_2480 : parseFloatQ "2480" = some 2480 := by
  have h : stripChars ['2','4','8','0'] = ['2','4','8','0'] := by decide
  have h2 : List.takeWhile Char.isDigit ['2','4','8','0'] = ['2','4','8','0'] := by decide
  have h3 : List.dropWhile Char.isDigit ['2','4','8','0'] = [] := by decide
  have h4 : digitsToNat ['2','4','8','0'] = 2480 := by decide
  simp [parseFloatQ, h, h2, h3, h4]

/-- Rejection by `parseFloatQ` of "N/A" (Python `float("N/A")` raises). -/
theorem parseFloatQ_NA : parseFloatQ "N/A" = none := by
  have h : stripChars ['N','/','A'] = ['N','/','A'] := by decide
  have h3 : List.dropWhile Char.isDigit ['N','/','A'] = ['N','/','A'] := by decide
  simp [parseFloatQ, h, h3]

/-- Rejection by `parseFloatQ` of "NR" (Python `float("NR")` raises). -/
theorem parseFloatQ_NR : parseFloatQ "NR" = none := by
  have h : stripChars ['N','R'] = ['N','R'] := by decide
  have h3 : List.dropWhile Char.isDigit ['N','R'] = ['N','R'] := by decide
  simp [parseFloatQ, h, h3]

/-- Evaluation of `parseFloatQ` on the decimal string "2480.5". -/
theorem parseFloatQ_2480_5 : parseFloatQ "2480.5" = some (4961 / 2) := by
  have h : stripChars ['2','4','8','0','.','5'] = ['2','4','8','0','.','5'] := by decide
  have h2 : List.takeWhile Char.isDigit ['2','4','8','0','.','5'] = ['2','4','8','0'] := by decide
  have h3 : List.dropWhile Char.isDigit ['2','4','8','0','.','5'] = ['.','5'] := by decide
  have h4 : digitsToNat ['2','4','8','0'] = 2480 := by decide
  have h5 : digitsToNat ['5'] = 5 := by decide
  simp [parseFloatQ, h, h2, h3, h4, h5]
  norm_num

/-- C1: with the per-km rate fixed at 75 (domestic mode, randomness
mocked out) and buy_price 100, sell_price 150, qty 10 tonnes, distance
500 km, `compute_trade_profit` returns logistics_cost 37500, net_profit
-37000, roi -3700, and the net profit is not positive, so
`profitable = net_profit > 0` is `False`. -/
theorem compute_trade_profit_spec_point :
    compute_trade_profit 75 100 150 500 10 = (37500, -37000, -3700) ∧
    (compute_trade_profit 75 100 150 500 10).2.1 ≤ 0 := by
  have hpos : (0 : ℚ) < 100 := by norm_num
  constructor
  · simp only [compute_trade_profit]
    rw [if_pos hpos]
    norm_num [Prod.ext_iff]
  · simp only [compute_trade_profit]
    norm_num

/-- C4 counterexample: on two normalized records with (non-null) modal
prices 0 and 100, the code's average is 100 — the zero price is dropped
by Python truthiness — while the claimed mean of all non-null modal
prices is 50. -/
theorem summaryAverage_counterexample :
    summaryAveragePrice recordsZeroHundred = 100 ∧
    specAverageAllNonNull recordsZeroHundred = 50 ∧
    specAverageAllNonNull recordsZeroHundred < summaryAveragePrice recordsZeroHundred := by
  have h0 : truthyPrice (some (0 : ℚ)) = false := by simp [truthyPrice]
  have h100 : truthyPrice (some (100 : ℚ)) = true := by simp [truthyPrice]
  have e1 : summaryAveragePrice recordsZeroHundred = 100 := by
    simp [summaryAveragePrice, truthyModalPrices, recordsZeroHundred, mkTestRecord,
      h0, h100, pyMean]
    norm_num [pyRound2]
  have e2 : specAverageAllNonNull recordsZeroHundred = 50 := by
    simp [specAverageAllNonNull, recordsZeroHundred, mkTestRecord, pyMean]
    norm_num [pyRound2]
  refine ⟨e1, e2, ?_⟩
  rw [e1, e2]
  norm_num

/-- C5 counterexample: on the empty record sequence the summary
computation fails (Python's `max` raises `ValueError`, caught as a 500);
it does not produce an empty summary object. -/
theorem computeSummary_empty_counterexample :
    computeSummary ([] : List MarketRecord) "wheat" = none := rfl

/-- C7 counterexample: with empty input and the random draw equal to 25
on every day, every forecast price is 25, not 0. -/
theorem forecast_empty_nonzero_counterexample :
    (generate_price_forecast jitter25 0 [] 3).map ForecastPoint.forecast_price =
      [25, 25, 25] ∧ ((0 : ℚ) < 25) := by
  have hr : List.range' 1 3 = [1, 2, 3] := by decide
  constructor
  · simp [generate_price_forecast, truthyModalPrices, jitter25, hr]
    norm_num [pyRound2]
  · norm_num

/-- C8 counterexample: on two records with arrival dates 10 days apart
and modal prices 100 apart (median 150), with the randomness mocked to 0
the forecast price for day 1 is 150, not `round(baseline + 10.0 × 1, 2)`
= 160: the estimator computes no linear daily trend. -/
theorem forecast_no_trend_counterexample :
    (generate_price_forecast zeroJitter 0 recordsTenDaysApart 2).map
      ForecastPoint.forecast_price = [150, 150] ∧
    pyRound2 (150 + 10 * 1) = 160 ∧ ((150 : ℚ) < 160) := by
  have hr : List.range' 1 2 = [1, 2] := by decide
  have h100 : truthyPrice (some (100 : ℚ)) = true := by simp [truthyPrice]
  have h200 : truthyPrice (some (200 : ℚ)) = true := by simp [truthyPrice]
  have hle : ((100 : ℚ) ≤ 200) := by norm_num
  have hmed : pyMedian [100, 200] = 150 := by
    simp [pyMedian, pySort, insertIntoSorted, hle]
    norm_num
  refine ⟨?_, by norm_num [pyRound2], by norm_num⟩
  simp [generate_price_forecast, truthyModalPrices, recordsTenDaysApart, mkTestRecord,
    h100, h200, hr, hmed, zeroJitter]
  norm_num [pyRound2]

/-- The normalizer evaluated on the static fallback mandi records. -/
theorem normalize_fallback_eval :
    normalize_mandi_records (fallback_mandi_records "wheat" "2024-01-01") "wheat" =
      [ { state := "Madhya Pradesh", district := "Indore", market := "Indore",
          commodity := "Wheat", variety := "Common", arrival_date := "2024-01-01",
          min_price := some 2200, max_price := some 2450, modal_price := some 2350,
          unit := "Rs/Quintal" },
        { state := "Maharashtra", district := "Nagpur", market := "Nagpur",
          commodity := "Wheat", variety := "Common", arrival_date := "2024-01-01",
          min_price := some 2250, max_price := some 2480, modal_price := some 2380,
          unit := "Rs/Quintal" } ] := by
  have hcap : pyCapitalize "wheat" = "Wheat" := by decide
  simp [normalize_mandi_records, fallback_mandi_records, normalizeOne, float_or_none,
    pyFloatVal, List.filterMap_cons, parseFloatQ_2350, parseFloatQ_2380, parseFloatQ_2200,
    parseFloatQ_2450, parseFloatQ_2250, parseFloatQ_2480, hcap]

/-- C9: a domestic trade simulation whose source matches no market in the
normalized records reaches the caller as a **500** whose detail merely
quotes the 404 — the `except Exception` handler swallows the
`HTTPException(404)` — so the not-found condition is not surfaced
distinctly. -/
theorem simulate_trade_unknown_market_500 :
    simulate_trade_domestic (fallback_mandi_records "wheat" "2024-01-01")
        "wheat" "Pune" "Delhi" 20 500 75 =
      .error { status_code := 500,
               detail := "404: Source/destination not found in mandi data" } := by
  have h1 : containsCI "Indore" "Pune" = false := by decide
  have h2 : containsCI "Nagpur" "Pune" = false := by decide
  have h404 : strOfError (.httpExc 404 "Source/destination not found in mandi data") =
      "404: Source/destination not found in mandi data" := by decide
  simp [simulate_trade_domestic, simulateTradeDomesticBody, normalize_fallback_eval,
    h1, h2, h404, List.filter_cons]

/-- The normalizer is exactly: keep the records whose modal price parses,
and map each kept record to its normalized form. -/
theorem normalize_eq_filter_map (records : List RawRecord) (commodity_name : String) :
    normalize_mandi_records records commodity_name =
      (records.filter (fun r => (r.modal_price.bind pyFloatVal).isSome)).map
        (normalizeForced commodity_name) := by
  induction records with
  | nil => rfl
  | cons r t ih =>
    cases h : r.modal_price.bind pyFloatVal with
    | none =>
        simp only [normalize_mandi_records, List.filterMap_cons, List.filter_cons] at ih ⊢
        simp [normalizeOne, h, ih]
    | some v =>
        simp only [normalize_mandi_records, List.filterMap_cons, List.filter_cons] at ih ⊢
        simp [normalizeOne, normalizeForced, h, ih]

/-- C3: for every raw record sequence and commodity name, normalization
is total (it is a function), its output is at most as long as the input,
every output record carries a present (hence, in the rational model,
finite) modal price, and it equals filter-then-map: records whose modal
price fails to parse are excluded entirely, while min/max parse failures
only null that field (`normalizeForced` uses `float_or_none`). -/
theorem normalize_mandi_records_safe :
    ∀ (records : List RawRecord) (commodity_name : String),
      (normalize_mandi_records records commodity_name).length ≤ records.length ∧
      (∀ m ∈ normalize_mandi_records records commodity_name,
        m.modal_price.isSome = true) ∧
      normalize_mandi_records records commodity_name =
        (records.filter (fun r => (r.modal_price.bind pyFloatVal).isSome)).map
          (normalizeForced commodity_name) := by
  intro records commodity_name
  refine ⟨List.length_filterMap_le _ _, ?_, normalize_eq_filter_map records commodity_name⟩
  intro m hm
  rw [normalize_mandi_records, List.mem_filterMap] at hm
  obtain ⟨r, _, hone⟩ := hm
  cases h : r.modal_price.bind pyFloatVal with
  | none => simp [normalizeOne, h] at hone
  | some v =>
      simp only [normalizeOne, h] at hone
      rw [← Option.some.inj hone]
      rfl

/-- C3 witness: the safety theorem applied to a concrete batch containing
one unparsable-modal record and one parsable one. -/
theorem normalize_mandi_records_safe_witness :
    (normalize_mandi_records testRawRecords "wheat").length ≤ testRawRecords.length ∧
    (normalizeForced "wheat" rawParsable).modal_price.isSome = true := by
  have main := normalize_mandi_records_safe testRawRecords "wheat"
  refine ⟨main.1, main.2.1 (normalizeForced "wheat" rawParsable) ?_⟩
  rw [main.2.2]
  simp [testRawRecords, rawUnparsable, rawParsable, pyFloatVal, parseFloatQ_NA,
    parseFloatQ_2380, List.filter_cons]

/-- C10: every record produced by normalization carries the capitalized
commodity-name argument in its `commodity` field, and replacing the raw
records' own commodity values leaves the output unchanged — the raw
commodity is never used. -/
theorem normalize_commodity_from_argument :
    ∀ (records : List RawRecord) (commodity_name : String) (c : Option String),
      (∀ m ∈ normalize_mandi_records records commodity_name,
        m.commodity = pyCapitalize commodity_name) ∧
      normalize_mandi_records (records.map (fun r => { r with commodity := c }))
          commodity_name =
        normalize_mandi_records records commodity_name := by
  intro records commodity_name c
  constructor
  · intro m hm
    rw [normalize_mandi_records, List.mem_filterMap] at hm
    obtain ⟨r, _, hone⟩ := hm
    cases h : r.modal_price.bind pyFloatVal with
    | none => simp [normalizeOne, h] at hone
    | some v =>
        simp only [normalizeOne, h] at hone
        rw [← Option.some.inj hone]
  · rw [normalize_mandi_records, normalize_mandi_records, List.filterMap_map]
    rfl

/-- C10 witness: the commodity-override theorem applied to the concrete
test batch, with the raw commodity fields rewritten to "Rice". -/
theorem normalize_commodity_from_argument_witness :
    (normalizeForced "wheat" rawParsable).commodity = pyCapitalize "wheat" ∧
    normalize_mandi_records
        (testRawRecords.map (fun r => { r with commodity := some "Rice" })) "wheat" =
      normalize_mandi_records testRawRecords "wheat" := by
  have main := normalize_commodity_from_argument testRawRecords "wheat" (some "Rice")
  refine ⟨main.1 (normalizeForced "wheat" rawParsable) ?_, main.2⟩
  rw [normalize_eq_filter_map]
  simp [testRawRecords, rawUnparsable, rawParsable, pyFloatVal, parseFloatQ_NA,
    parseFloatQ_2380, List.filter_cons]

/-- The truthiness filter of line 51 equals a filterMap that keeps
exactly the non-null, non-zero modal prices. -/
theorem truthyModalPrices_eq (md : List MarketRecord) :
    truthyModalPrices md =
      md.filterMap (fun m => m.modal_price.bind
        (fun q => if q = 0 then none else some q)) := by
  induction md with
  | nil => rfl
  | cons m t ih =>
    simp only [truthyModalPrices, List.filter_cons, List.filterMap_cons] at ih ⊢
    cases hm : m.modal_price with
    | none => simpa [truthyPrice] using ih
    | some q =>
        by_cases hq : q = 0
        · subst hq
          simpa [truthyPrice] using ih
        · simpa [truthyPrice, hq, hm] using ih

/-- C4 (amended): the summary's average_price equals the 2-decimal
rounded arithmetic mean of the **non-null and non-zero** modal prices
(Python truthiness also drops zero prices), and 0 when there are none. -/
theorem summaryAveragePrice_eq_mean_nonzero :
    ∀ md : List MarketRecord, summaryAveragePrice md = averageNonNullNonZero md := by
  intro md
  simp only [summaryAveragePrice, averageNonNullNonZero, truthyModalPrices_eq]

/-- The champion of Python's `max`-style fold is an element of the list,
its key dominates every element, and every element strictly before it has
a strictly smaller key (the first maximum wins, since the fold replaces
the champion only on strict improvement). -/
theorem foldl_max_first {α β : Type} [LinearOrder β] (key : α → β) :
    ∀ (xs seen : List α) (c : α),
      (∀ z ∈ seen, key z ≤ key c) →
      (∃ l₁ l₂, seen = l₁ ++ c :: l₂ ∧ ∀ z ∈ l₁, key z < key c) →
      (∀ z ∈ seen ++ xs,
        key z ≤ key (xs.foldl (fun acc y => if decide (key acc < key y) then y else acc) c)) ∧
      ∃ l₁ l₂,
        seen ++ xs =
          l₁ ++ (xs.foldl (fun acc y => if decide (key acc < key y) then y else acc) c) :: l₂ ∧
        ∀ z ∈ l₁, key z <
          key (xs.foldl (fun acc y => if decide (key acc < key y) then y else acc) c) := by
  intro xs
  induction xs with
  | nil =>
    intro seen c hmax hdec
    refine ⟨by simpa using hmax, ?_⟩
    simpa using hdec
  | cons y ys ih =>
    intro seen c hmax hdec
    simp only [List.foldl_cons]
    by_cases hcy : key c < key y
    · have hstep : (if decide (key c < key y) then y else c) = y := by simp [hcy]
      rw [hstep]
      have hmax' : ∀ z ∈ seen ++ [y], key z ≤ key y := by
        intro z hz
        rcases List.mem_append.mp hz with hz | hz
        · exact le_of_lt (lt_of_le_of_lt (hmax z hz) hcy)
        · rw [List.mem_singleton.mp hz]
      have hdec' : ∃ l₁ l₂, seen ++ [y] = l₁ ++ y :: l₂ ∧ ∀ z ∈ l₁, key z < key y :=
        ⟨seen, [], by simp, fun z hz => lt_of_le_of_lt (hmax z hz) hcy⟩
      have h := ih (seen ++ [y]) y hmax' hdec'
      rw [List.append_assoc] at h
      simpa using h
    · have hstep : (if decide (key c < key y) then y else c) = c := by simp [hcy]
      rw [hstep]
      have hmax' : ∀ z ∈ seen ++ [y], key z ≤ key c := by
        intro z hz
        rcases List.mem_append.mp hz with hz | hz
        · exact hmax z hz
        · rw [List.mem_singleton.mp hz]; exact le_of_not_lt hcy
      have hdec' : ∃ l₁ l₂, seen ++ [y] = l₁ ++ c :: l₂ ∧ ∀ z ∈ l₁, key z < key c := by
        obtain ⟨l₁, l₂, hs, hlt⟩ := hdec
        exact ⟨l₁, l₂ ++ [y], by rw [hs]; simp, hlt⟩
      have h := ih (seen ++ [y]) c hmax' hdec'
      rw [List.append_assoc] at h
      simpa using h

/-- Dual of `foldl_max_first` for Python's `min`-style fold. -/
theorem foldl_min_first {α β : Type} [LinearOrder β] (key : α → β) :
    ∀ (xs seen : List α) (c : α),
      (∀ z ∈ seen, key c ≤ key z) →
      (∃ l₁ l₂, seen = l₁ ++ c :: l₂ ∧ ∀ z ∈ l₁, key c < key z) →
      (∀ z ∈ seen ++ xs,
        key (xs.foldl (fun acc y => if decide (key y < key acc) then y else acc) c) ≤ key z) ∧
      ∃ l₁ l₂,
        seen ++ xs =
          l₁ ++ (xs.foldl (fun acc y => if decide (key y < key acc) then y else acc) c) :: l₂ ∧
        ∀ z ∈ l₁,
          key (xs.foldl (fun acc y => if decide (key y < key acc) then y else acc) c) < key z := by
  intro xs
  induction xs with
  | nil =>
    intro seen c hmin hdec
    refine ⟨by simpa using hmin, ?_⟩
    simpa using hdec
  | cons y ys ih =>
    intro seen c hmin hdec
    simp only [List.foldl_cons]
    by_cases hyc : key y < key c
    · have hstep : (if decide (key y < key c) then y else c) = y := by simp [hyc]
      rw [hstep]
      have hmin' : ∀ z ∈ seen ++ [y], key y ≤ key z := by
        intro z hz
        rcases List.mem_append.mp hz with hz | hz
        · exact le_of_lt (lt_of_lt_of_le hyc (hmin z hz))
        · rw [List.mem_singleton.mp hz]
      have hdec' : ∃ l₁ l₂, seen ++ [y] = l₁ ++ y :: l₂ ∧ ∀ z ∈ l₁, key y < key z :=
        ⟨seen, [], by simp, fun z hz => lt_of_lt_of_le hyc (hmin z hz)⟩
      have h := ih (seen ++ [y]) y hmin' hdec'
      rw [List.append_assoc] at h
      simpa using h
    · have hstep : (if decide (key y < key c) then y else c) = c := by simp [hyc]
      rw [hstep]
      have hmin' : ∀ z ∈ seen ++ [y], key c ≤ key z := by
        intro z hz
        rcases List.mem_append.mp hz with hz | hz
        · exact hmin z hz
        · rw [List.mem_singleton.mp hz]; exact le_of_not_lt hyc
      have hdec' : ∃ l₁ l₂, seen ++ [y] = l₁ ++ c :: l₂ ∧ ∀ z ∈ l₁, key c < key z := by
        obtain ⟨l₁, l₂, hs, hlt⟩ := hdec
        exact ⟨l₁, l₂ ++ [y], by rw [hs]; simp, hlt⟩
      have h := ih (seen ++ [y]) c hmin' hdec'
      rw [List.append_assoc] at h
      simpa using h

/-- C5 (amended): on a nonempty record list the summary's highest entry
is the first record attaining the maximal `modal_price` (missing treated
as 0) and its lowest entry the first record attaining the minimal
`modal_price` (missing treated as +infinity); on the empty list the
computation fails (500 error) instead of returning an empty summary. -/
theorem computeSummary_extremes :
    ∀ (md : List MarketRecord) (c : String),
      (computeSummary md c = none ↔ md = []) ∧
      ∀ s, computeSummary md c = some s →
        (∃ hi l₁ l₂, md = l₁ ++ hi :: l₂ ∧ (∀ y ∈ md, keyHigh y ≤ keyHigh hi) ∧
          (∀ y ∈ l₁, keyHigh y < keyHigh hi) ∧
          s.highest_price = hi.modal_price.getD 0 ∧
          s.highest_market = hi.market ++ ", " ++ hi.state) ∧
        (∃ lo l₁ l₂, md = l₁ ++ lo :: l₂ ∧ (∀ y ∈ md, keyLow lo ≤ keyLow y) ∧
          (∀ y ∈ l₁, keyLow lo < keyLow y) ∧
          s.lowest_price = lo.modal_price.getD 0 ∧
          s.lowest_market = lo.market ++ ", " ++ lo.state) := by
  intro md c
  cases md with
  | nil =>
    refine ⟨by simp [computeSummary, pyMaxRecord, pyMinRecord, pyFold1], ?_⟩
    intro s hs
    simp [computeSummary, pyMaxRecord, pyMinRecord, pyFold1] at hs
  | cons x xs =>
    constructor
    · simp [computeSummary, pyMaxRecord, pyMinRecord, pyFold1]
    · intro s hs
      have hmax := foldl_max_first keyHigh xs [x] x (by simp)
        ⟨[], [], by simp, by simp⟩
      have hmin := foldl_min_first keyLow xs [x] x (by simp)
        ⟨[], [], by simp, by simp⟩
      simp only [computeSummary, pyMaxRecord, pyMinRecord, pyFold1,
        Option.some.injEq] at hs
      rw [← hs]
      constructor
      · obtain ⟨hdom, l₁, l₂, heq, hlt⟩ := hmax
        exact ⟨_, l₁, l₂, by simpa using heq, by simpa using hdom, hlt, rfl, rfl⟩
      · obtain ⟨hdom, l₁, l₂, heq, hlt⟩ := hmin
        exact ⟨_, l₁, l₂, by simpa using heq, by simpa using hdom, hlt, rfl, rfl⟩

/-- C5 witness: the extremes theorem applied to a concrete singleton
record list, with the summary evaluated explicitly. -/
theorem computeSummary_extremes_witness :
    ∃ hi l₁ l₂,
      [mkTestRecord "A" "S1" "" (some 100)] = l₁ ++ hi :: l₂ ∧
      (∀ y ∈ [mkTestRecord "A" "S1" "" (some 100)], keyHigh y ≤ keyHigh hi) ∧
      (∀ y ∈ l₁, keyHigh y < keyHigh hi) ∧
      ({ commodity := "Wheat", average_price := 100, highest_price := 100,
         highest_market := "A, S1", lowest_price := 100,
         lowest_market := "A, S1" } : Summary).highest_price =
        hi.modal_price.getD 0 ∧
      ({ commodity := "Wheat", average_price := 100, highest_price := 100,
         highest_market := "A, S1", lowest_price := 100,
         lowest_market := "A, S1" } : Summary).highest_market =
        hi.market ++ ", " ++ hi.state := by
  refine (((computeSummary_extremes [mkTestRecord "A" "S1" "" (some 100)] "wheat").2
    { commodity := "Wheat", average_price := 100, highest_price := 100,
      highest_market := "A, S1", lowest_price := 100, lowest_market := "A, S1" } ?_).1)
  have hcap : pyCapitalize "wheat" = "Wheat" := by decide
  have h100 : truthyPrice (some (100 : ℚ)) = true := by simp [truthyPrice]
  simp [computeSummary, pyMaxRecord, pyMinRecord, pyFold1, summaryAveragePrice,
    truthyModalPrices, mkTestRecord, h100, pyMean, hcap, keyLow]
  norm_num [pyRound2]

/-- C6: for every jitter stream, evaluation date, record sequence and
horizon, the forecast has length exactly the horizon and the point at
index k is dated exactly k+1 days after the evaluation date — dates are
strictly increasing by one calendar day starting tomorrow. -/
theorem generate_price_forecast_length_dates :
    ∀ (jitter : ℕ → ℚ) (today : ℤ) (md : List MarketRecord) (days : ℕ),
      (generate_price_forecast jitter today md days).length = days ∧
      ∀ (k : ℕ) (p : ForecastPoint),
        (generate_price_forecast jitter today md days)[k]? = some p →
        p.date = today + (k : ℤ) + 1 := by
  intro jitter today md days
  have hlen : (generate_price_forecast jitter today md days).length = days := by
    simp [generate_price_forecast]
  refine ⟨hlen, ?_⟩
  intro k p hp
  have hk : k < days := by
    rcases List.getElem?_eq_some_iff.mp hp with ⟨h, _⟩
    rwa [hlen] at h
  have hrange : (List.range' 1 days)[k]? = some (1 + 1 * k) :=
    List.getElem?_range' 1 1 hk
  simp only [generate_price_forecast, List.getElem?_map, hrange,
    Option.map_some'] at hp
  have hpd : p.date = today + ((1 + 1 * k : ℕ) : ℤ) :=
    (congrArg ForecastPoint.date (Option.some.inj hp)).symm
  rw [hpd]
  push_cast
  ring

/-- C6 witness: the length/date theorem applied to a concrete call with
horizon 2 at index 0. -/
theorem generate_price_forecast_length_dates_witness :
    (generate_price_forecast zeroJitter 0 [] 2).length = 2 ∧
    (⟨1, 0⟩ : ForecastPoint).date = 0 + ((0 : ℕ) : ℤ) + 1 := by
  have main := generate_price_forecast_length_dates zeroJitter 0 [] 2
  refine ⟨main.1, main.2 0 ⟨1, 0⟩ ?_⟩
  have hr : List.range' 1 2 = [1, 2] := by decide
  simp [generate_price_forecast, truthyModalPrices, zeroJitter, hr]
  norm_num [pyRound2]

/-- C7 (amended): on empty input the forecast still has horizon length,
but each point's price is the rounded random draw added to a baseline of
0 — it equals 0 only when the randomness is mocked to 0, not in
general. -/
theorem generate_price_forecast_empty_input :
    ∀ (jitter : ℕ → ℚ) (today : ℤ) (days k : ℕ) (p : ForecastPoint),
      (generate_price_forecast jitter today [] days).length = days ∧
      ((generate_price_forecast jitter today [] days)[k]? = some p →
        p.forecast_price = pyRound2 (jitter (1 + 1 * k))) := by
  intro jitter today days k p
  have hlen : (generate_price_forecast jitter today [] days).length = days := by
    simp [generate_price_forecast]
  refine ⟨hlen, ?_⟩
  intro hp
  have hk : k < days := by
    rcases List.getElem?_eq_some_iff.mp hp with ⟨h, _⟩
    rwa [hlen] at h
  have hrange : (List.range' 1 days)[k]? = some (1 + 1 * k) :=
    List.getElem?_range' 1 1 hk
  have heval : (generate_price_forecast jitter today [] days)[k]? =
      some ⟨today + ((1 + 1 * k : ℕ) : ℤ), pyRound2 (jitter (1 + 1 * k))⟩ := by
    simp [generate_price_forecast, truthyModalPrices, hrange]
  rw [heval] at hp
  have hfp := congrArg ForecastPoint.forecast_price (Option.some.inj hp)
  rw [← hfp]

/-- C7 amended-claim witness: the empty-input theorem applied with the
constant-25 jitter, horizon 1, index 0. -/
theorem generate_price_forecast_empty_input_witness :
    (generate_price_forecast jitter25 0 [] 1).length = 1 ∧
    (⟨1, (25 : ℚ)⟩ : ForecastPoint).forecast_price =
      pyRound2 (jitter25 (1 + 1 * 0)) := by
  have main := generate_price_forecast_empty_input jitter25 0 1 0 ⟨1, 25⟩
  refine ⟨main.1, main.2 ?_⟩
  have hr : List.range' 1 1 = [1] := by decide
  simp [generate_price_forecast, truthyModalPrices, jitter25, hr]
  norm_num [pyRound2]

/-- C8 (amended): on the two records with arrival dates 10 days apart and
modal prices 100 apart, the estimator ignores the dates entirely: with
the randomness mocked to 0, every forecast price equals the rounded
median 150 of the two prices — the daily trend is 0, not 10. -/
theorem generate_price_forecast_ten_days_no_trend :
    ∀ (today : ℤ) (days k : ℕ) (p : ForecastPoint),
      (generate_price_forecast zeroJitter today recordsTenDaysApart days)[k]? =
        some p →
      p.forecast_price = 150 := by
  intro today days k p hp
  have hlen : (generate_price_forecast zeroJitter today recordsTenDaysApart
      days).length = days := by
    simp [generate_price_forecast]
  have hk : k < days := by
    rcases List.getElem?_eq_some_iff.mp hp with ⟨h, _⟩
    rwa [hlen] at h
  have hrange : (List.range' 1 days)[k]? = some (1 + 1 * k) :=
    List.getElem?_range' 1 1 hk
  have h100 : truthyPrice (some (100 : ℚ)) = true := by simp [truthyPrice]
  have h200 : truthyPrice (some (200 : ℚ)) = true := by simp [truthyPrice]
  have hprices : truthyModalPrices recordsTenDaysApart = [100, 200] := by
    simp [truthyModalPrices, recordsTenDaysApart, mkTestRecord, h100, h200,
      List.filter_cons]
  have hle : ((100 : ℚ) ≤ 200) := by norm_num
  have hmed : pyMedian [100, 200] = 150 := by
    simp [pyMedian, pySort, insertIntoSorted, hle]
    norm_num
  have heval : (generate_price_forecast zeroJitter today recordsTenDaysApart
      days)[k]? =
      some ⟨today + ((1 + 1 * k : ℕ) : ℤ), pyRound2 150⟩ := by
    simp [generate_price_forecast, hprices, hmed, hrange, zeroJitter]
  rw [heval] at hp
  have hfp := congrArg ForecastPoint.forecast_price (Option.some.inj hp)
  rw [← hfp]
  norm_num [pyRound2]

/-- C8 amended-claim witness: the no-trend theorem applied at horizon 1,
index 0. -/
theorem generate_price_forecast_ten_days_no_trend_witness :
    (⟨1, (150 : ℚ)⟩ : ForecastPoint).forecast_price = 150 := by
  apply generate_price_forecast_ten_days_no_trend 0 1 0 ⟨1, 150⟩
  have hr : List.range' 1 1 = [1] := by decide
  have h100 : truthyPrice (some (100 : ℚ)) = true := by simp [truthyPrice]
  have h200 : truthyPrice (some (200 : ℚ)) = true := by simp [truthyPrice]
  have hprices : truthyModalPrices recordsTenDaysApart = [100, 200] := by
    simp [truthyModalPrices, recordsTenDaysApart, mkTestRecord, h100, h200,
      List.filter_cons]
  have hle : ((100 : ℚ) ≤ 200) := by norm_num
  have hmed : pyMedian [100, 200] = 150 := by
    simp [pyMedian, pySort, insertIntoSorted, hle]
    norm_num
  simp [generate_price_forecast, hprices, hmed, hr, zeroJitter]
  norm_num [pyRound2]

/-- C2: whenever the external collaborator call raises, or its text does
not parse as JSON, or the parsed value is not a mapping containing a
"recommendation" key, the structured-insight resolver returns exactly the
deterministic fallback's output for the same inputs (and, being a total
function, never propagates an error). -/
theorem generate_structured_ai_insight_fallback_on_failure
    (parseJson : String → Option Json) (collabResult : Except Unit String)
    (commodity : String) (market_data : List MarketRecord) (summary : Summary)
    (forecast : List ForecastPoint) (harvest_days : ℤ) (weather : Weather)
    (location : String)
    (h : collabResult = .error () ∨
      (∃ t, collabResult = .ok t ∧ parseJson (pyStrip t) = none) ∨
      (∃ t j, collabResult = .ok t ∧ parseJson (pyStrip t) = some j ∧
        hasRecommendationKey j = false)) :
    generate_structured_ai_insight parseJson collabResult commodity market_data
        summary forecast harvest_days weather location =
      fallback_structured_insight commodity market_data summary forecast
        harvest_days weather := by
  rcases h with h | ⟨t, ht, hparse⟩ | ⟨t, j, ht, hparse, hrec⟩
  · rw [h]
    rfl
  · rw [ht]
    simp [generate_structured_ai_insight, hparse]
  · rw [ht]
    simp [generate_structured_ai_insight, hparse, hrec]

/-- C2 witness: the fallback theorem applied to a collaborator that
returns unparsable text, on concrete inputs. -/
theorem generate_structured_ai_insight_fallback_witness :
    generate_structured_ai_insight parseAlwaysFails (Except.ok "not json")
        "wheat" [] testSummary [] 53 testWeather "Indore" =
      fallback_structured_insight "wheat" [] testSummary [] 53 testWeather := by
  apply generate_structured_ai_insight_fallback_on_failure
  exact Or.inr (Or.inl ⟨"not json", rfl, rfl⟩)
